import Mathlib

set_option maxRecDepth 8192

/-!
Shallow embedding of the Site Service Bane FastAPI backend (main.py):
the rule-based chat responder on POST /api/chat and the database
diagnostics probe on GET /test, together with theorems about the
behaviour of both handlers.
-/

/-- Python `str.lower()` restricted to the ASCII range, applied
character by character (`Char.toLower` lowers only A..Z). -/
def pyLower (s : String) : String := ⟨s.data.map Char.toLower⟩

/-- Python `str.strip()`: remove leading and trailing whitespace. -/
def pyStrip (s : String) : String :=
  ⟨((s.data.dropWhile Char.isWhitespace).reverse.dropWhile Char.isWhitespace).reverse⟩

/-- Whether the first list is an initial segment of the second. -/
def strStarts : List Char → List Char → Bool
  | [], _ => true
  | _ :: _, [] => false
  | a :: as, b :: bs => a == b && strStarts as bs

/-- Whether `needle` occurs contiguously inside the second list. -/
def strHasSub (needle : List Char) : List Char → Bool
  | [] => strStarts needle []
  | b :: bs => strStarts needle (b :: bs) || strHasSub needle bs

/-- Python substring membership `k in t`. -/
def pyIn (k t : String) : Bool := strHasSub k.data t.data

/-- Python slicing `s[:n]`: the first `n` characters of `s`. -/
def pyTake (n : Nat) (s : String) : String := ⟨s.data.take n⟩

/-- Python truthiness of an `os.getenv` result: `None` and the empty
string are falsy, every other string is truthy. -/
def pyTruthy : Option String → Bool
  | none => false
  | some s => !(s == "")

/-- Rule-1 keywords in `generate_reply` (contact / offer intent). -/
def kw1 : List String := ["kontakt", "contact", "telefon", "epost", "email", "tilbud"]

/-- Rule-2 keywords in `generate_reply` (domain / rail intent). -/
def kw2 : List String := ["samferdsel", "bane", "jernbane", "rail"]

/-- Rule-3 keywords in `generate_reply` (services-listing intent). -/
def kw3 : List String := ["tjeneste", "services", "hva tilbyr", "leverer dere"]

/-- Rule-4 keywords in `generate_reply` (references / portfolio intent). -/
def kw4 : List String := ["referanse", "case", "prosjekt", "portfolio"]

/-- Reply literal of rule 1 (contact prompt). -/
def contactReply : String :=
  "Takk for henvendelsen! Du kan kontakte oss for tilbud eller befaring. " ++
  "Fortell gjerne kort om behov (område, type arbeid, tidsperspektiv), så følger vi opp."

/-- Reply literal of rule 2 (domain / rail service description). -/
def domainReply : String :=
  "Vi leverer tjenester innen samferdsel/bane: grunnarbeid, kabel/kanal, sikring, drift og vedlikehold. " ++
  "Alt levert trygt, effektivt og i henhold til krav."

/-- Reply literal of rule 3 (services enumeration). -/
def servicesReply : String :=
  "Våre hovedtjenester omfatter: prosjekt- og byggeledelse, grunn- og betongarbeider, " ++
  "kabelkanaler og trekkerør, belysning og el, sikkerhetstiltak, samt drift og vedlikehold."

/-- Reply literal of rule 4 (references / portfolio). -/
def referencesReply : String :=
  "Vi har erfaring fra en rekke leveranser i samferdselssektoren. " ++
  "Ta en titt på referansene for et utvalg av prosjekter – alt fra utskifting av kabelgrøfter " ++
  "til større infrastrukturtiltak."

/-- Reply literal of rule 5 (generic greeting on trivial input). -/
def greetingReply : String := "Hei! Hvordan kan vi hjelpe deg i dag?"

/-- Reply literal of rule 6 (fallback clarification request). -/
def fallbackReply : String :=
  "Forstår. Kan du beskrive litt mer konkret hva du trenger hjelp til (område, omfang, tid)? " ++
  "Jeg kan også koble deg til riktig fagperson hos oss."

/-- The inner `generate_reply` function of `chat_endpoint` in main.py:
lowercase the text, then run the six rules in order, first match wins. -/
def generate_reply (text : String) : String :=
  if kw1.any (fun k => pyIn k (pyLower text)) then contactReply
  else if kw2.any (fun k => pyIn k (pyLower text)) then domainReply
  else if kw3.any (fun k => pyIn k (pyLower text)) then servicesReply
  else if kw4.any (fun k => pyIn k (pyLower text)) then referencesReply
  else if (pyLower text).length < 3 then greetingReply
  else fallbackReply

/-- Pydantic model ChatMessage of main.py. -/
structure ChatMessage where
  role : String
  content : String
deriving DecidableEq

/-- Pydantic model ChatRequest of main.py; `context` is optional. -/
structure ChatRequest where
  messages : List ChatMessage
  context : Option String := none

/-- Pydantic model ChatResponse of main.py. -/
structure ChatResponse where
  reply : String
deriving DecidableEq

/-- The extraction loop of `chat_endpoint`: scan `reversed(body.messages)`
and take the stripped content of the first message whose lowercased role
is "user"; default to the empty string. -/
def latestUserMsg (msgs : List ChatMessage) : String :=
  match msgs.reverse.find? (fun m => pyLower m.role == "user") with
  | some m => pyStrip m.content
  | none => ""

/-- POST /api/chat handler. `HTTPException(status_code, detail)` is
modelled as `Except.error (status_code, detail)`. -/
def chat_endpoint (body : ChatRequest) : Except (Nat × String) ChatResponse :=
  if body.messages.isEmpty then
    Except.error (400, "No messages provided")
  else
    Except.ok ⟨generate_reply (latestUserMsg body.messages)⟩

/-- Outcome of the `from database import db` probe in `test_database`:
the module is absent (ImportError), the import raises another exception,
`db` is None, or `db` is a handle carrying an optional `name` attribute
and the result of `list_collection_names()` (a list, or an exception
message). -/
inductive DbImport where
  | moduleAbsent : DbImport
  | importFails (msg : String) : DbImport
  | dbNone : DbImport
  | dbHandle (nm : Option String) (listColls : Except String (List String)) : DbImport

/-- A Python exception derived from `Exception`, as caught by the two
except clauses of `test_database`. -/
inductive PyErr where
  | importError : PyErr
  | exception (msg : String) : PyErr

/-- The diagnostics payload dictionary of `test_database`; the two
fields initialised to `None` are `Option String`. -/
structure TestResponse where
  backend : String
  database : String
  database_url : Option String
  database_name : Option String
  connection_status : String
  collections : List String
deriving DecidableEq

/-- The initial `response` dictionary of `test_database`. -/
def initResponse : TestResponse :=
  { backend := "✅ Running"
    database := "❌ Not Available"
    database_url := none
    database_name := none
    connection_status := "Not Connected"
    collections := [] }

/-- Body of the outer `try` block of `test_database`, before its except
clauses run: an uncaught ImportError or other exception surfaces as
`Except.error`; the inner `try` around `list_collection_names()` catches
every exception itself, so the dbHandle arm never errors. -/
def tryBlock (probe : DbImport) (r : TestResponse) : Except PyErr TestResponse :=
  match probe with
  | .moduleAbsent => Except.error PyErr.importError
  | .importFails msg => Except.error (PyErr.exception msg)
  | .dbNone => Except.ok { r with database := "⚠️  Available but not initialized" }
  | .dbHandle nm listColls =>
      let r1 := { r with
        database := "✅ Available"
        database_url := some "✅ Configured"
        database_name := some (nm.getD "✅ Connected")
        connection_status := "Connected" }
      match listColls with
      | Except.ok cols =>
          Except.ok { r1 with collections := cols.take 10, database := "✅ Connected & Working" }
      | Except.error e =>
          Except.ok { r1 with database := "⚠️  Connected but Error: " ++ pyTake 50 e }

/-- The two except clauses of `test_database`: `except ImportError` and
`except Exception as e` together catch every `PyErr`. -/
def handleErrors (r0 : TestResponse) : Except PyErr TestResponse → Except PyErr TestResponse
  | Except.ok r => Except.ok r
  | Except.error PyErr.importError =>
      Except.ok { r0 with database := "❌ Database module not found (run enable-database first)" }
  | Except.error (PyErr.exception msg) =>
      Except.ok { r0 with database := "❌ Error: " ++ pyTake 50 msg }

/-- GET /test handler. `dbUrl` and `dbName` are the `os.getenv` results
for DATABASE_URL and DATABASE_NAME. A normal dictionary return maps to
status 200; an uncaught exception would surface as `Except.error`. -/
def test_database (probe : DbImport) (dbUrl dbName : Option String) :
    Except PyErr (Nat × TestResponse) :=
  (handleErrors initResponse (tryBlock probe initResponse)).map fun r =>
    (200, { r with
      database_url := some (if pyTruthy dbUrl then "✅ Set" else "❌ Not Set")
      database_name := some (if pyTruthy dbName then "✅ Set" else "❌ Not Set") })

/-- A match of `strStarts` needs at least as many characters in the
haystack as in the needle. -/
theorem strStarts_length {n h : List Char} (hs : strStarts n h = true) :
    n.length ≤ h.length := by
  induction n generalizing h with
  | nil => simp
  | cons a as ih =>
    cases h with
    | nil => simp [strStarts] at hs
    | cons b bs =>
      simp only [strStarts, Bool.and_eq_true] at hs
      simpa using Nat.succ_le_succ (ih hs.2)

/-- A substring occurrence needs at least as many characters in the
haystack as in the needle. -/
theorem strHasSub_length {n h : List Char} (hs : strHasSub n h = true) :
    n.length ≤ h.length := by
  induction h with
  | nil => exact strStarts_length (by simpa [strHasSub] using hs)
  | cons b bs ih =>
    simp only [strHasSub, Bool.or_eq_true] at hs
    rcases hs with hs | hs
    · exact strStarts_length hs
    · exact Nat.le_succ_of_le (ih hs)

/-- A keyword of length at least 4 cannot occur in a string of fewer
than 3 characters. -/
theorem pyIn_false_of_short {k t : String} (hk : 4 ≤ k.data.length)
    (ht : t.data.length < 3) : pyIn k t = false := by
  cases hip : pyIn k t
  · rfl
  · exfalso
    have := strHasSub_length (n := k.data) (h := t.data) (by simpa [pyIn] using hip)
    omega

/-- Lowercasing keeps the character count. -/
theorem pyLower_length (s : String) : (pyLower s).length = s.length := by
  obtain ⟨l⟩ := s
  simp [pyLower]

/-- C4: a chat request whose messages list is empty fails with HTTP 400
and detail string "No messages provided", and no reply is produced. -/
theorem C4_empty_messages_rejected (c : Option String) :
    chat_endpoint ⟨[], c⟩ = Except.error (400, "No messages provided") := rfl

/-- C9: the optional `context` field never influences the response: two
chat requests with the same messages and different contexts get the same
result. -/
theorem C9_context_never_influences (msgs : List ChatMessage) (c1 c2 : Option String) :
    chat_endpoint ⟨msgs, c1⟩ = chat_endpoint ⟨msgs, c2⟩ := rfl

/-- C7: for every probe outcome and environment configuration, GET /test
returns a normal 200 payload; no exception escapes the handler. -/
theorem C7_test_endpoint_total (probe : DbImport) (dbUrl dbName : Option String) :
    ∃ r : TestResponse, test_database probe dbUrl dbName = Except.ok (200, r) := by
  cases probe with
  | moduleAbsent => exact ⟨_, rfl⟩
  | importFails msg => exact ⟨_, rfl⟩
  | dbNone => exact ⟨_, rfl⟩
  | dbHandle nm lst => cases lst <;> exact ⟨_, rfl⟩

/-- C8: when the database handle is present, a successful enumeration
reports the first at most 10 collection names, and a failing enumeration
reports a status containing an error excerpt of at most 50 characters. -/
theorem C8_collections_and_truncation (nm : Option String) (cols : List String)
    (e : String) (dbUrl dbName : Option String) :
    (∃ r : TestResponse,
        test_database (DbImport.dbHandle nm (Except.ok cols)) dbUrl dbName = Except.ok (200, r) ∧
        r.collections = cols.take 10 ∧ r.collections.length ≤ 10 ∧
        r.database = "✅ Connected & Working") ∧
    (∃ r : TestResponse,
        test_database (DbImport.dbHandle nm (Except.error e)) dbUrl dbName = Except.ok (200, r) ∧
        r.database = "⚠️  Connected but Error: " ++ pyTake 50 e ∧
        (pyTake 50 e).length ≤ 50) := by
  constructor
  · refine ⟨_, rfl, rfl, ?_, rfl⟩
    simp
  · refine ⟨_, rfl, rfl, ?_⟩
    simp [pyTake]

/-- C10 as stated is false: an environment variable that is set to the
empty string is reported as "❌ Not Set", because the source tests the
Python truthiness of the `os.getenv` result, not its presence. -/
theorem C10_counterexample :
    ¬ ∀ (probe : DbImport) (dbUrl dbName : Option String) (r : TestResponse),
        test_database probe dbUrl dbName = Except.ok (200, r) →
        r.database_url = some (if dbUrl.isSome then "✅ Set" else "❌ Not Set") := by
  intro h
  have h2 := h DbImport.moduleAbsent (some "") none
    { backend := "✅ Running"
      database := "❌ Database module not found (run enable-database first)"
      database_url := some "❌ Not Set"
      database_name := some "❌ Not Set"
      connection_status := "Not Connected"
      collections := [] } rfl
  exact absurd h2 (by decide)

/-- C10 amended: in every GET /test response, `database_url` is
"✅ Set" iff DATABASE_URL is set to a non-empty string and "❌ Not Set"
otherwise, and likewise `database_name` with DATABASE_NAME, regardless
of the probe outcome: the probe-branch assignments to these fields are
always overwritten by the final environment check. -/
theorem C10_env_fields_overwritten (probe : DbImport) (dbUrl dbName : Option String) :
    (test_database probe dbUrl dbName).map (fun x => x.2.database_url) =
      Except.ok (some (if pyTruthy dbUrl then "✅ Set" else "❌ Not Set")) ∧
    (test_database probe dbUrl dbName).map (fun x => x.2.database_name) =
      Except.ok (some (if pyTruthy dbName then "✅ Set" else "❌ Not Set")) := by
  cases probe with
  | moduleAbsent => exact ⟨rfl, rfl⟩
  | importFails msg => exact ⟨rfl, rfl⟩
  | dbNone => exact ⟨rfl, rfl⟩
  | dbHandle nm lst => cases lst <;> exact ⟨rfl, rfl⟩

/-- C6 as stated is false: no set of five fixed strings covers the range
of `generate_reply`, because six pairwise distinct replies are reachable
(contact, domain, services, references, greeting and fallback). -/
theorem C6_counterexample :
    ¬ ∃ r1 r2 r3 r4 r5 : String, ∀ t : String,
        generate_reply t = r1 ∨ generate_reply t = r2 ∨ generate_reply t = r3 ∨
        generate_reply t = r4 ∨ generate_reply t = r5 := by
  rintro ⟨r1, r2, r3, r4, r5, h⟩
  classical
  have hmem : ∀ t : String, generate_reply t ∈ ({r1, r2, r3, r4, r5} : Finset String) := by
    intro t
    rcases h t with h' | h' | h' | h' | h' <;> simp [h']
  have hsub : ({contactReply, domainReply, servicesReply, referencesReply, greetingReply,
      fallbackReply} : Finset String) ⊆ {r1, r2, r3, r4, r5} := by
    intro x hx
    simp only [Finset.mem_insert, Finset.mem_singleton] at hx
    rcases hx with rfl | rfl | rfl | rfl | rfl | rfl
    · exact (by decide : generate_reply "kontakt" = contactReply) ▸ hmem "kontakt"
    · exact (by decide : generate_reply "bane" = domainReply) ▸ hmem "bane"
    · exact (by decide : generate_reply "tjeneste" = servicesReply) ▸ hmem "tjeneste"
    · exact (by decide : generate_reply "prosjekt" = referencesReply) ▸ hmem "prosjekt"
    · exact (by decide : generate_reply "" = greetingReply) ▸ hmem ""
    · exact (by decide : generate_reply "hello there" = fallbackReply) ▸ hmem "hello there"
  have hcard6 : ({contactReply, domainReply, servicesReply, referencesReply, greetingReply,
      fallbackReply} : Finset String).card = 6 := by decide
  have hle : ({r1, r2, r3, r4, r5} : Finset String).card ≤ 5 := by
    refine le_trans (Finset.card_insert_le _ _) (Nat.add_le_add_right ?_ 1)
    refine le_trans (Finset.card_insert_le _ _) (Nat.add_le_add_right ?_ 1)
    refine le_trans (Finset.card_insert_le _ _) (Nat.add_le_add_right ?_ 1)
    refine le_trans (Finset.card_insert_le _ _) (Nat.add_le_add_right ?_ 1)
    exact le_of_eq (Finset.card_singleton _)
  have h6 := hcard6 ▸ Finset.card_le_card hsub
  omega

/-- C6 amended: for every input string, `generate_reply` returns one of
exactly six canned response templates. -/
theorem C6_reply_in_six_templates (t : String) :
    generate_reply t = contactReply ∨ generate_reply t = domainReply ∨
    generate_reply t = servicesReply ∨ generate_reply t = referencesReply ∨
    generate_reply t = greetingReply ∨ generate_reply t = fallbackReply := by
  unfold generate_reply
  split_ifs <;> tauto

/-- C1 as stated is false: a text containing both "prosjekt" and "bane"
together with the rule-1 keyword "kontakt" gets the contact reply, not
the domain reply, because rule 1 is checked before rule 2. -/
theorem C1_counterexample :
    pyIn "prosjekt" "kontakt prosjekt bane" = true ∧
    pyIn "bane" "kontakt prosjekt bane" = true ∧
    chat_endpoint ⟨[⟨"user", "kontakt prosjekt bane"⟩], none⟩ = Except.ok ⟨contactReply⟩ ∧
    contactReply ≠ domainReply :=
  ⟨by decide, by decide, rfl, by decide⟩

/-- C1 amended: if the extracted user text contains both "prosjekt" and
"bane" (case-insensitively) and contains no rule-1 contact keyword, the
reply is the domain/rail literal, not the references literal, because
rule 2 is checked before rule 4. -/
theorem C1_domain_beats_references :
    ∀ (msgs : List ChatMessage) (c : Option String),
      msgs ≠ [] →
      pyIn "prosjekt" (pyLower (latestUserMsg msgs)) = true →
      pyIn "bane" (pyLower (latestUserMsg msgs)) = true →
      (∀ k ∈ kw1, pyIn k (pyLower (latestUserMsg msgs)) = false) →
      chat_endpoint ⟨msgs, c⟩ = Except.ok ⟨domainReply⟩ ∧ domainReply ≠ referencesReply := by
  intro msgs c hne hp hb hk1
  have hempty : msgs.isEmpty = false := by
    cases msgs with
    | nil => exact absurd rfl hne
    | cons a l => rfl
  have hA : (kw1.any fun k => pyIn k (pyLower (latestUserMsg msgs))) = false := by
    rw [List.any_eq_false]
    intro k hk
    simp [hk1 k hk]
  have hB : (kw2.any fun k => pyIn k (pyLower (latestUserMsg msgs))) = true := by
    rw [List.any_eq_true]
    exact ⟨"bane", by simp [kw2], hb⟩
  constructor
  · simp only [chat_endpoint, hempty, Bool.false_eq_true, if_false]
    simp [generate_reply, hA, hB]
  · decide

/-- C1 witness: a concrete request whose user text contains "prosjekt"
and "bane" and no contact keyword gets the domain reply. -/
theorem C1_witness :
    chat_endpoint ⟨[⟨"user", "prosjekt bane"⟩], none⟩ = Except.ok ⟨domainReply⟩ ∧
    domainReply ≠ referencesReply :=
  C1_domain_beats_references [⟨"user", "prosjekt bane"⟩] none (by decide) (by decide)
    (by decide) (by decide)

/-- C2 as stated is false: a request can contain a user message with
"kontakt" and still not get the contact reply, because only the last
user-role message is classified and a later user message shadows it. -/
theorem C2_counterexample :
    (∃ m ∈ ([⟨"user", "kontakt her"⟩, ⟨"user", "mer om bane"⟩] : List ChatMessage),
        pyLower m.role = "user" ∧ pyIn "kontakt" (pyLower m.content) = true) ∧
    chat_endpoint ⟨[⟨"user", "kontakt her"⟩, ⟨"user", "mer om bane"⟩], none⟩ =
      Except.ok ⟨domainReply⟩ ∧
    domainReply ≠ contactReply :=
  ⟨by decide, rfl, by decide⟩

/-- C2 amended: if the extracted user text (the stripped content of the
last user-role message) contains "kontakt" case-insensitively, the reply
is the contact-prompt literal, regardless of other keywords present. -/
theorem C2_last_user_kontakt_gets_contact_reply :
    ∀ (msgs : List ChatMessage) (c : Option String),
      msgs ≠ [] →
      pyIn "kontakt" (pyLower (latestUserMsg msgs)) = true →
      chat_endpoint ⟨msgs, c⟩ = Except.ok ⟨contactReply⟩ := by
  intro msgs c hne hk
  have hempty : msgs.isEmpty = false := by
    cases msgs with
    | nil => exact absurd rfl hne
    | cons a l => rfl
  have hA : (kw1.any fun k => pyIn k (pyLower (latestUserMsg msgs))) = true := by
    rw [List.any_eq_true]
    exact ⟨"kontakt", by simp [kw1], hk⟩
  simp only [chat_endpoint, hempty, Bool.false_eq_true, if_false]
  simp [generate_reply, hA]

/-- C2 witness: a concrete request whose last user message contains
"kontakt" and the domain keyword "bane" still gets the contact reply. -/
theorem C2_witness :
    chat_endpoint ⟨[⟨"user", "kontakt oss om bane"⟩], none⟩ = Except.ok ⟨contactReply⟩ :=
  C2_last_user_kontakt_gets_contact_reply [⟨"user", "kontakt oss om bane"⟩] none
    (by decide) (by decide)

/-- Characters of a string and its length agree with the list view. -/
theorem string_data_length (s : String) : s.data.length = s.length := by
  obtain ⟨l⟩ := s
  rfl

/-- C5: when the extracted, stripped user text has fewer than 3
characters the reply is the generic greeting, and no keyword of rules
1 to 4 can occur in such a short text. -/
theorem C5_short_text_generic_greeting :
    ∀ (msgs : List ChatMessage) (c : Option String),
      msgs ≠ [] →
      (latestUserMsg msgs).length < 3 →
      chat_endpoint ⟨msgs, c⟩ = Except.ok ⟨greetingReply⟩ ∧
      ∀ k ∈ kw1 ++ kw2 ++ kw3 ++ kw4, pyIn k (pyLower (latestUserMsg msgs)) = false := by
  intro msgs c hne hlt
  have hempty : msgs.isEmpty = false := by simpa using hne
  have hdl : (pyLower (latestUserMsg msgs)).data.length < 3 := by
    rw [string_data_length, pyLower_length]
    exact hlt
  have hall : ∀ k ∈ kw1 ++ kw2 ++ kw3 ++ kw4, 4 ≤ k.data.length := by decide
  have hfalse : ∀ k ∈ kw1 ++ kw2 ++ kw3 ++ kw4, pyIn k (pyLower (latestUserMsg msgs)) = false :=
    fun k hk => pyIn_false_of_short (hall k hk) hdl
  refine ⟨?_, hfalse⟩
  have hA : (kw1.any fun k => pyIn k (pyLower (latestUserMsg msgs))) = false := by
    rw [List.any_eq_false]
    intro k hk
    simp [hfalse k (by simp [hk])]
  have hB : (kw2.any fun k => pyIn k (pyLower (latestUserMsg msgs))) = false := by
    rw [List.any_eq_false]
    intro k hk
    simp [hfalse k (by simp [hk])]
  have hC : (kw3.any fun k => pyIn k (pyLower (latestUserMsg msgs))) = false := by
    rw [List.any_eq_false]
    intro k hk
    simp [hfalse k (by simp [hk])]
  have hD : (kw4.any fun k => pyIn k (pyLower (latestUserMsg msgs))) = false := by
    rw [List.any_eq_false]
    intro k hk
    simp [hfalse k (by simp [hk])]
  have hlen : (pyLower (latestUserMsg msgs)).length < 3 := by
    rw [pyLower_length]
    exact hlt
  simp only [chat_endpoint, hempty, Bool.false_eq_true, if_false]
  simp [generate_reply, hA, hB, hC, hD, hlen]

/-- C5 witness: the two-character input "hi" gets the generic greeting
and matches no keyword of rules 1 to 4. -/
theorem C5_witness :
    chat_endpoint ⟨[⟨"user", "hi"⟩], none⟩ = Except.ok ⟨greetingReply⟩ ∧
    ∀ k ∈ kw1 ++ kw2 ++ kw3 ++ kw4, pyIn k (pyLower (latestUserMsg [⟨"user", "hi"⟩])) = false :=
  C5_short_text_generic_greeting [⟨"user", "hi"⟩] none (by decide) (by decide)

/-- C3: the classified text is the stripped content of the last message
whose lowercased role is "user" (later user messages shadow earlier
ones), role matching is case-insensitive ("USER" behaves like "user"),
and with no user-role message the text is empty and the reply is the
generic greeting. -/
theorem C3_extraction_rule :
    (∀ (pre post : List ChatMessage) (m : ChatMessage) (c : Option String),
        pyLower m.role = "user" →
        (∀ m2 ∈ post, ¬ pyLower m2.role = "user") →
        chat_endpoint ⟨pre ++ m :: post, c⟩ =
          Except.ok ⟨generate_reply (pyStrip m.content)⟩) ∧
    (∀ (pre post : List ChatMessage) (content : String),
        latestUserMsg (pre ++ ⟨"USER", content⟩ :: post) =
          latestUserMsg (pre ++ ⟨"user", content⟩ :: post)) ∧
    (∀ (msgs : List ChatMessage) (c : Option String),
        msgs ≠ [] → (∀ m ∈ msgs, ¬ pyLower m.role = "user") →
        latestUserMsg msgs = "" ∧ chat_endpoint ⟨msgs, c⟩ = Except.ok ⟨greetingReply⟩) := by
  refine ⟨?_, ?_, ?_⟩
  · intro pre post m c hm hpost
    have hempty : (pre ++ m :: post).isEmpty = false := by simp
    have hlu : latestUserMsg (pre ++ m :: post) = pyStrip m.content := by
      unfold latestUserMsg
      rw [List.reverse_append, List.reverse_cons, List.find?_append, List.find?_append]
      have h1 : post.reverse.find? (fun m2 => pyLower m2.role == "user") = none := by
        rw [List.find?_eq_none]
        intro x hx
        simp only [List.mem_reverse] at hx
        simpa using hpost x hx
      have h2 : List.find? (fun m2 => pyLower m2.role == "user") [m] = some m :=
        List.find?_cons_of_pos _ (by simpa using hm)
      rw [h1, h2]
      simp
    simp only [chat_endpoint, hempty, Bool.false_eq_true, if_false, hlu]
  · intro pre post content
    unfold latestUserMsg
    rw [List.reverse_append, List.reverse_cons, List.find?_append, List.find?_append,
        List.reverse_append, List.reverse_cons, List.find?_append, List.find?_append]
    have hU : List.find? (fun m2 : ChatMessage => pyLower m2.role == "user")
        [⟨"USER", content⟩] = some ⟨"USER", content⟩ :=
      List.find?_cons_of_pos _ (by show (pyLower "USER" == "user") = true; decide)
    have hu : List.find? (fun m2 : ChatMessage => pyLower m2.role == "user")
        [⟨"user", content⟩] = some ⟨"user", content⟩ :=
      List.find?_cons_of_pos _ (by show (pyLower "user" == "user") = true; decide)
    rw [hU, hu]
    cases hfp : post.reverse.find? (fun m2 => pyLower m2.role == "user") with
    | none => simp
    | some x => simp
  · intro msgs c hne hnouser
    have hfind : msgs.reverse.find? (fun m => pyLower m.role == "user") = none := by
      rw [List.find?_eq_none]
      intro x hx
      simpa using hnouser x (by simpa using hx)
    have hlu : latestUserMsg msgs = "" := by
      unfold latestUserMsg
      rw [hfind]
    have hempty : msgs.isEmpty = false := by simpa using hne
    refine ⟨hlu, ?_⟩
    simp only [chat_endpoint, hempty, Bool.false_eq_true, if_false, hlu]
    rw [(by decide : generate_reply "" = greetingReply)]

/-- C3 witness: a concrete request where a "USER"-role message shadows
an earlier user message, and a concrete request with no user message. -/
theorem C3_witness :
    chat_endpoint ⟨[⟨"user", "gammel"⟩, ⟨"USER", " hei bane "⟩, ⟨"assistant", "x"⟩], none⟩ =
      Except.ok ⟨generate_reply (pyStrip " hei bane ")⟩ ∧
    latestUserMsg [⟨"bot", "a"⟩, ⟨"USER", "abc"⟩] = latestUserMsg [⟨"bot", "a"⟩, ⟨"user", "abc"⟩] ∧
    (latestUserMsg [⟨"assistant", "hei"⟩] = "" ∧
      chat_endpoint ⟨[⟨"assistant", "hei"⟩], none⟩ = Except.ok ⟨greetingReply⟩) :=
  ⟨C3_extraction_rule.1 [⟨"user", "gammel"⟩] [⟨"assistant", "x"⟩] ⟨"USER", " hei bane "⟩ none
      (by decide) (by decide),
   C3_extraction_rule.2.1 [⟨"bot", "a"⟩] [] "abc",
   C3_extraction_rule.2.2 [⟨"assistant", "hei"⟩] none (by decide) (by decide)⟩
